import Mathlib

/-!
Shallow embedding of the telegram-service gateway:
`apps/telegram_mcp_server.py` (tool dispatch, envelope shaping, update cursor)
over `src/telegram_service/telegram_client.py` (destination resolution,
parse-mode normalization, transport calls).

The remote transport (`aiogram.Bot`) is modelled as an oracle: a bundle of
functions from the exact argument records the client builds to
`Except String` results, where `.error e` models a raised exception with
message `e`.  Client-level functions additionally return the transport call
they made (`Option`-valued trace), so that "the transport was never invoked"
is expressible.  Python truthiness (`if x:`, `x or y`) is modelled explicitly
where the source relies on it.
-/

namespace TelegramService

/-- JSON-like values: the shape of every serialized tool-response payload
(`json.dumps` output is modelled structurally, not as a string). -/
inductive JVal where
  | nul
  | jb (v : Bool)
  | ji (v : Int)
  | js (v : String)
  | jarr (vs : List JVal)
  | jobj (fields : List (String × JVal))

/-- Field lookup in a JSON object; `none` for non-objects or missing keys. -/
def JVal.lookup (v : JVal) (k : String) : Option JVal :=
  match v with
  | .jobj fields => (fields.find? (fun p => p.1 == k)).map (fun p => p.2)
  | _ => none

/-- Values of the untyped per-call argument dict (`Dict[str, Any]`),
restricted to the JSON types the nine input schemas declare. -/
inductive PyVal where
  | pstr (s : String)
  | pint (n : Int)
  | pbool (b : Bool)
  | plist (l : List String)
deriving DecidableEq

/-- The argument bag handed to `call_tool`. -/
abbrev Args := List (String × PyVal)

/-- `arguments.get(k)`: `none` when the key is absent. -/
def Args.get (a : Args) (k : String) : Option PyVal :=
  (List.find? (fun p => p.1 == k) a).map (fun p => p.2)

/-- String-typed read of an argument (the schemas declare these fields as strings). -/
def Args.getStr (a : Args) (k : String) : Option String :=
  match a.get k with
  | some (.pstr s) => some s
  | _ => none

/-- `arguments.get(k, default)` for a string field. -/
def Args.getStrD (a : Args) (k : String) (d : String) : String :=
  (a.getStr k).getD d

/-- `arguments.get(k, default)` for a boolean field. -/
def Args.getBoolD (a : Args) (k : String) (d : Bool) : Bool :=
  match a.get k with
  | some (.pbool b) => b
  | _ => d

/-- `arguments.get(k, default)` for an integer field. -/
def Args.getIntD (a : Args) (k : String) (d : Int) : Int :=
  match a.get k with
  | some (.pint n) => n
  | _ => d

/-- Array-of-string read of an argument (`allowed_updates`). -/
def Args.getStrList (a : Args) (k : String) : Option (List String) :=
  match a.get k with
  | some (.plist l) => some l
  | _ => none

/-- Python truthiness of an optional string: `None` and `""` are falsy. -/
def truthyOptStr : Option String → Bool
  | none => false
  | some s => s != ""

/-- `aiogram.enums.ParseMode` values this code ever produces. -/
inductive ParseMode where
  | MARKDOWN
  | HTML
deriving DecidableEq

/-- Python's `str.upper()` on the ASCII strings involved here. -/
def pyUpper (s : String) : String := String.mk (s.data.map Char.toUpper)

/-- `telegram_client.send_message` lines 76-81 (same block in `send_photo` /
`send_document`): `parse_mode_enum = None; if parse_mode: ...` with
case-insensitive comparison after `.upper()`.  Unrecognized values fall
through and leave the enum `None`. -/
def parseModeEnum (parse_mode : Option String) : Option ParseMode :=
  if truthyOptStr parse_mode then
    match parse_mode with
    | some s =>
        if pyUpper s = "MARKDOWN" then some ParseMode.MARKDOWN
        else if pyUpper s = "HTML" then some ParseMode.HTML
        else none
    | none => none
  else none

/-- `target_chat_id = chat_id or self.default_chat_id` (Python `or`:
a falsy explicit argument falls through to the default). -/
def resolveChatId (chat_id default_chat_id : Option String) : Option String :=
  if truthyOptStr chat_id then chat_id else default_chat_id

/-- The argument record `bot.send_message` receives. -/
structure SendMessageCall where
  chat_id : String
  text : Option String
  parse_mode : Option ParseMode
  disable_notification : Bool
deriving DecidableEq

/-- The argument record `bot.send_photo` receives. -/
structure SendPhotoCall where
  chat_id : String
  photo : Option String
  caption : Option String
  parse_mode : Option ParseMode
  disable_notification : Bool
deriving DecidableEq

/-- The argument record `bot.send_document` receives. -/
structure SendDocumentCall where
  chat_id : String
  document : Option String
  caption : Option String
  parse_mode : Option ParseMode
  disable_notification : Bool
deriving DecidableEq

/-- The fields of the returned `Message` object that the gateway reads:
`message.message_id`, `message.chat.id`, and `message.date` (already
ISO-formatted as the handler would serialize it; `none` models a null date). -/
structure SentMessage where
  message_id : Int
  chat_id : Int
  date : Option String
deriving DecidableEq

/-- `TelegramClient.send_message` (telegram_client.py lines 45-96): resolve the
destination with Python `or`, raise `ValueError` if the result is falsy,
normalize the parse mode, then call the transport.  Returns the transport call
made (if any) alongside the outcome; the `except`/re-raise wrapper is the
identity on errors. -/
def TelegramClient.send_message
    (default_chat_id : Option String)
    (bot : SendMessageCall → Except String SentMessage)
    (text : Option String) (chat_id : Option String)
    (parse_mode : Option String) (disable_notification : Bool) :
    Option SendMessageCall × Except String SentMessage :=
  let target_chat_id := resolveChatId chat_id default_chat_id
  if truthyOptStr target_chat_id then
    let call : SendMessageCall :=
      { chat_id := target_chat_id.getD ""
        text := text
        parse_mode := parseModeEnum parse_mode
        disable_notification := disable_notification }
    (some call, bot call)
  else
    (none, Except.error "No chat_id provided and no default chat_id set")

/-- `TelegramClient.send_photo` (lines 98-132): as `send_message`, but the
parse-mode conversion is guarded by `if parse_mode and caption:` — a falsy
caption leaves the enum `None`. -/
def TelegramClient.send_photo
    (default_chat_id : Option String)
    (bot : SendPhotoCall → Except String SentMessage)
    (photo : Option String) (chat_id : Option String) (caption : Option String)
    (parse_mode : Option String) (disable_notification : Bool) :
    Option SendPhotoCall × Except String SentMessage :=
  let target_chat_id := resolveChatId chat_id default_chat_id
  if truthyOptStr target_chat_id then
    let call : SendPhotoCall :=
      { chat_id := target_chat_id.getD ""
        photo := photo
        caption := caption
        parse_mode := if truthyOptStr caption then parseModeEnum parse_mode else none
        disable_notification := disable_notification }
    (some call, bot call)
  else
    (none, Except.error "No chat_id provided and no default chat_id set")

/-- `TelegramClient.send_document` (lines 134-168): identical structure to
`send_photo` with a document payload. -/
def TelegramClient.send_document
    (default_chat_id : Option String)
    (bot : SendDocumentCall → Except String SentMessage)
    (document : Option String) (chat_id : Option String) (caption : Option String)
    (parse_mode : Option String) (disable_notification : Bool) :
    Option SendDocumentCall × Except String SentMessage :=
  let target_chat_id := resolveChatId chat_id default_chat_id
  if truthyOptStr target_chat_id then
    let call : SendDocumentCall :=
      { chat_id := target_chat_id.getD ""
        document := document
        caption := caption
        parse_mode := if truthyOptStr caption then parseModeEnum parse_mode else none
        disable_notification := disable_notification }
    (some call, bot call)
  else
    (none, Except.error "No chat_id provided and no default chat_id set")

/-- The argument record `bot.get_updates` receives
(`TelegramClient.get_updates`, lines 170-201, is a pass-through whose
`except`/re-raise is the identity on errors). -/
structure GetUpdatesCall where
  offset : Option Nat
  limit : Int
  timeout : Int
  allowed_updates : Option (List String)
deriving DecidableEq

/-- The fields of an update's `from_user` that `_get_updates` reads. -/
structure TgUser where
  id : Int
  username : Option String
  first_name : Option String
deriving DecidableEq

/-- The fields of a message's `chat` that `_get_updates` reads
(`title` via `getattr(..., None)`). -/
structure TgChat where
  id : Int
  type : String
  title : Option String
deriving DecidableEq

/-- The fields of an update's `message` that `_get_updates` reads
(`date` already ISO-formatted; `none` models a null date). -/
structure TgMessage where
  message_id : Int
  date : Option String
  text : Option String
  from_user : Option TgUser
  chat : TgChat
deriving DecidableEq

/-- An element of the batch returned by `bot.get_updates`.  Telegram update
identifiers are nonnegative integers, modelled as `Nat`. -/
structure TgUpdate where
  update_id : Nat
  update_type : String
  message : Option TgMessage
deriving DecidableEq

/-- The fields of the `get_me` result that the gateway reads. -/
structure BotUser where
  id : Int
  is_bot : Bool
  first_name : String
  username : Option String
  can_join_groups : Bool
  can_read_all_group_messages : Bool
  supports_inline_queries : Bool
deriving DecidableEq

/-- The fields of the `get_chat` result that `_get_chat_info` reads
(the last five via `getattr(..., None)`). -/
structure ChatFull where
  id : Int
  type : String
  title : Option String
  username : Option String
  first_name : Option String
  last_name : Option String
  description : Option String
deriving DecidableEq

/-- The dict `TelegramClient.get_webhook_info` builds from the transport
result (lines 271-288). -/
structure WebhookInfo where
  url : String
  has_custom_certificate : Bool
  pending_update_count : Int
  ip_address : Option String
  last_error_date : Option Int
  last_error_message : Option String
  max_connections : Option Int
  allowed_updates : Option (List String)
deriving DecidableEq

/-- Serialize an optional string as a JSON string or null. -/
def optStrJ : Option String → JVal
  | some s => JVal.js s
  | none => JVal.nul

/-- Serialize an optional integer as a JSON number or null. -/
def optIntJ : Option Int → JVal
  | some n => JVal.ji n
  | none => JVal.nul

/-- The uniform failure payload every handler's `except` branch builds:
`{"success": False, "error": str(e)}`. -/
def errEnvelope (e : String) : JVal :=
  JVal.jobj [("success", JVal.jb false), ("error", JVal.js e)]

/-- `offset=self.last_update_id + 1 if self.last_update_id else None`
(telegram_mcp_server.py line 421).  Python truthiness: a cursor that is
unset, and equally a cursor equal to `0`, yields an unset offset. -/
def nextOffset (last_update_id : Option Nat) : Option Nat :=
  match last_update_id with
  | some n => if n = 0 then none else some (n + 1)
  | none => none

/-- The `get_updates` call `_get_updates` issues (lines 420-424);
`allowed_updates` is left at its `None` default. -/
def pullCall (last_update_id : Option Nat) (a : Args) : GetUpdatesCall :=
  { offset := nextOffset last_update_id
    limit := a.getIntD "limit" 10
    timeout := a.getIntD "timeout" 0
    allowed_updates := none }

/-- The flattening of one update performed in `_get_updates` lines 438-461. -/
def formatUpdate (u : TgUpdate) : JVal :=
  let base := [("update_id", JVal.ji (u.update_id : Int)),
               ("type", JVal.js u.update_type)]
  match u.message with
  | none => JVal.jobj base
  | some m =>
      JVal.jobj (base ++
        [("message", JVal.jobj
          [("id", JVal.ji m.message_id),
           ("date", optStrJ m.date),
           ("text", optStrJ m.text),
           ("from", JVal.jobj
             [("id", match m.from_user with
                     | some f => JVal.ji f.id
                     | none => JVal.nul),
              ("username", match m.from_user with
                           | some f => optStrJ f.username
                           | none => JVal.nul),
              ("first_name", match m.from_user with
                             | some f => optStrJ f.first_name
                             | none => JVal.nul)]),
           ("chat", JVal.jobj
             [("id", JVal.ji m.chat.id),
              ("type", JVal.js m.chat.type),
              ("title", optStrJ m.chat.title)])])])

/-- `_send_message` (lines 314-348): extract arguments with their dict
defaults, call the client, shape `{success, message_id, chat_id, date}` on
success and the uniform failure envelope on any exception (the `ValueError`
from destination resolution is raised inside the same `try`). -/
def mcpSendMessage (default_chat_id : Option String)
    (bot : SendMessageCall → Except String SentMessage) (a : Args) :
    Option SendMessageCall × JVal :=
  let text := a.getStr "text"
  let chat_id := a.getStr "chat_id"
  let parse_mode := a.getStrD "parse_mode" "Markdown"
  let disable_notification := a.getBoolD "disable_notification" false
  match TelegramClient.send_message default_chat_id bot text chat_id
      (some parse_mode) disable_notification with
  | (call, Except.ok message) =>
      (call, JVal.jobj
        [("success", JVal.jb true),
         ("message_id", JVal.ji message.message_id),
         ("chat_id", JVal.ji message.chat_id),
         ("date", optStrJ message.date)])
  | (call, Except.error e) => (call, errEnvelope e)

/-- `_send_photo` (lines 350-381): shape
`{success, message_id, chat_id, has_caption}` where
`has_caption = bool(caption)`. -/
def mcpSendPhoto (default_chat_id : Option String)
    (bot : SendPhotoCall → Except String SentMessage) (a : Args) :
    Option SendPhotoCall × JVal :=
  let photo_url := a.getStr "photo_url"
  let caption := a.getStr "caption"
  let chat_id := a.getStr "chat_id"
  let parse_mode := a.getStrD "parse_mode" "Markdown"
  match TelegramClient.send_photo default_chat_id bot photo_url chat_id caption
      (some parse_mode) false with
  | (call, Except.ok message) =>
      (call, JVal.jobj
        [("success", JVal.jb true),
         ("message_id", JVal.ji message.message_id),
         ("chat_id", JVal.ji message.chat_id),
         ("has_caption", JVal.jb (truthyOptStr caption))])
  | (call, Except.error e) => (call, errEnvelope e)

/-- `_send_document` (lines 383-412): reads no `parse_mode` argument; the
client's `"Markdown"` parameter default applies. -/
def mcpSendDocument (default_chat_id : Option String)
    (bot : SendDocumentCall → Except String SentMessage) (a : Args) :
    Option SendDocumentCall × JVal :=
  let document_url := a.getStr "document_url"
  let caption := a.getStr "caption"
  let chat_id := a.getStr "chat_id"
  match TelegramClient.send_document default_chat_id bot document_url chat_id
      caption (some "Markdown") false with
  | (call, Except.ok message) =>
      (call, JVal.jobj
        [("success", JVal.jb true),
         ("message_id", JVal.ji message.message_id),
         ("chat_id", JVal.ji message.chat_id),
         ("has_caption", JVal.jb (truthyOptStr caption))])
  | (call, Except.error e) => (call, errEnvelope e)

/-- `_get_updates` (lines 414-477): pull with the cursor-derived offset; an
empty batch returns `{updates: [], count: 0}` without touching the cursor; a
non-empty batch advances the cursor to the last element's identifier and
returns the flattened list; a raised exception yields the failure envelope
and leaves the cursor unchanged.  Returns the new cursor alongside the
payload. -/
def mcpGetUpdates (bot : GetUpdatesCall → Except String (List TgUpdate))
    (last_update_id : Option Nat) (a : Args) : Option Nat × JVal :=
  match bot (pullCall last_update_id a) with
  | Except.error e => (last_update_id, errEnvelope e)
  | Except.ok updates =>
      match updates.getLast? with
      | none =>
          (last_update_id,
           JVal.jobj [("updates", JVal.jarr []), ("count", JVal.ji 0)])
      | some last =>
          (some last.update_id,
           JVal.jobj [("updates", JVal.jarr (updates.map formatUpdate)),
                      ("count", JVal.ji (updates.length : Int))])

/-- `_get_bot_info` (lines 479-503): on success the payload is the bare info
dict, with no `success` flag. -/
def mcpGetBotInfo (bot : Unit → Except String BotUser) (_a : Args) : JVal :=
  match bot () with
  | Except.ok b =>
      JVal.jobj
        [("id", JVal.ji b.id),
         ("is_bot", JVal.jb b.is_bot),
         ("first_name", JVal.js b.first_name),
         ("username", optStrJ b.username),
         ("can_join_groups", JVal.jb b.can_join_groups),
         ("can_read_all_group_messages", JVal.jb b.can_read_all_group_messages),
         ("supports_inline_queries", JVal.jb b.supports_inline_queries)]
  | Except.error e => errEnvelope e

/-- The primary info dict `_get_chat_info` builds (lines 512-520). -/
def chatInfoFields (c : ChatFull) : List (String × JVal) :=
  [("id", JVal.ji c.id),
   ("type", JVal.js c.type),
   ("title", optStrJ c.title),
   ("username", optStrJ c.username),
   ("first_name", optStrJ c.first_name),
   ("last_name", optStrJ c.last_name),
   ("description", optStrJ c.description)]

/-- `_get_chat_info` (lines 505-538): primary `get_chat` lookup, then a
best-effort `get_chat_member_count` whose failure is swallowed by a bare
`except: pass`, omitting the `member_count` field. -/
def mcpGetChatInfo (getChat : Option String → Except String ChatFull)
    (getCount : Option String → Except String Int) (a : Args) : JVal :=
  let chat_id := a.getStr "chat_id"
  match getChat chat_id with
  | Except.error e => errEnvelope e
  | Except.ok c =>
      match getCount chat_id with
      | Except.ok n => JVal.jobj (chatInfoFields c ++ [("member_count", JVal.ji n)])
      | Except.error _ => JVal.jobj (chatInfoFields c)

/-- `_set_webhook` (lines 540-564): the transport's boolean result becomes
the envelope's `success` field and selects the message text. -/
def mcpSetWebhook
    (setHook : Option String → Option (List String) → Except String Bool)
    (a : Args) : JVal :=
  let url := a.getStr "url"
  let allowed_updates := a.getStrList "allowed_updates"
  match setHook url allowed_updates with
  | Except.ok result =>
      JVal.jobj
        [("success", JVal.jb result),
         ("webhook_url", optStrJ url),
         ("message", JVal.js (if result then "Webhook set successfully"
                              else "Failed to set webhook"))]
  | Except.error e => errEnvelope e

/-- `_delete_webhook` (lines 566-583). -/
def mcpDeleteWebhook (delHook : Unit → Except String Bool) (_a : Args) : JVal :=
  match delHook () with
  | Except.ok result =>
      JVal.jobj
        [("success", JVal.jb result),
         ("message", JVal.js (if result then "Webhook deleted successfully"
                              else "Failed to delete webhook"))]
  | Except.error e => errEnvelope e

/-- `_get_webhook_info` (lines 585-599): serializes the info dict as-is. -/
def mcpGetWebhookInfo (getInfo : Unit → Except String WebhookInfo) (_a : Args) :
    JVal :=
  match getInfo () with
  | Except.ok i =>
      JVal.jobj
        [("url", JVal.js i.url),
         ("has_custom_certificate", JVal.jb i.has_custom_certificate),
         ("pending_update_count", JVal.ji i.pending_update_count),
         ("ip_address", optStrJ i.ip_address),
         ("last_error_date", optIntJ i.last_error_date),
         ("last_error_message", optStrJ i.last_error_message),
         ("max_connections", optIntJ i.max_connections),
         ("allowed_updates", match i.allowed_updates with
                             | some l => JVal.jarr (l.map JVal.js)
                             | none => JVal.nul)]
  | Except.error e => errEnvelope e

/-- The transport oracle: one `Except`-valued function per `aiogram.Bot`
operation the gateway uses; `.error e` models a raised exception. -/
structure Transport where
  sendMessage : SendMessageCall → Except String SentMessage
  sendPhoto : SendPhotoCall → Except String SentMessage
  sendDocument : SendDocumentCall → Except String SentMessage
  getUpdates : GetUpdatesCall → Except String (List TgUpdate)
  getMe : Unit → Except String BotUser
  getChat : Option String → Except String ChatFull
  getChatMemberCount : Option String → Except String Int
  setWebhook : Option String → Option (List String) → Except String Bool
  deleteWebhook : Unit → Except String Bool
  getWebhookInfo : Unit → Except String WebhookInfo

/-- The gateway's mutable state: whether `self.client` is set, and
`self.last_update_id`. -/
structure GatewayState where
  clientInit : Bool
  last_update_id : Option Nat
deriving DecidableEq

/-- The text payload `call_tool` returns: either a `json.dumps` of a payload
(modelled structurally) or a bare formatted string. -/
inductive Response where
  | json (v : JVal)
  | plain (s : String)

/-- The nine registered tool names (the Action Catalog keys). -/
def toolNames : List String :=
  ["telegram_send_message", "telegram_send_photo", "telegram_send_document",
   "telegram_get_updates", "telegram_get_bot_info", "telegram_get_chat_info",
   "telegram_set_webhook", "telegram_delete_webhook",
   "telegram_get_webhook_info"]

/-- The name-dispatch chain of `call_tool` (lines 229-251): each known name
routes to its handler; the fallback returns the bare string
`"Unknown tool: <name>"`.  Only `telegram_get_updates` touches
`last_update_id`. -/
def dispatchTool (tr : Transport) (default_chat_id : Option String)
    (st : GatewayState) (name : String) (a : Args) : GatewayState × Response :=
  if name = "telegram_send_message" then
    (st, Response.json (mcpSendMessage default_chat_id tr.sendMessage a).2)
  else if name = "telegram_send_photo" then
    (st, Response.json (mcpSendPhoto default_chat_id tr.sendPhoto a).2)
  else if name = "telegram_send_document" then
    (st, Response.json (mcpSendDocument default_chat_id tr.sendDocument a).2)
  else if name = "telegram_get_updates" then
    let r := mcpGetUpdates tr.getUpdates st.last_update_id a
    ({ st with last_update_id := r.1 }, Response.json r.2)
  else if name = "telegram_get_bot_info" then
    (st, Response.json (mcpGetBotInfo tr.getMe a))
  else if name = "telegram_get_chat_info" then
    (st, Response.json (mcpGetChatInfo tr.getChat tr.getChatMemberCount a))
  else if name = "telegram_set_webhook" then
    (st, Response.json (mcpSetWebhook tr.setWebhook a))
  else if name = "telegram_delete_webhook" then
    (st, Response.json (mcpDeleteWebhook tr.deleteWebhook a))
  else if name = "telegram_get_webhook_info" then
    (st, Response.json (mcpGetWebhookInfo tr.getWebhookInfo a))
  else
    (st, Response.plain ("Unknown tool: " ++ name))

/-- `call_tool` (lines 223-257): lazily construct the client on first use
(`initRes` models the outcome of `TelegramClient()`); an exception there is
caught by the outer handler and returned as the bare string
`"Error: <message>"`. -/
def call_tool (tr : Transport) (default_chat_id : Option String)
    (initRes : Except String Unit) (st : GatewayState) (name : String)
    (a : Args) : GatewayState × Response :=
  if st.clientInit then
    dispatchTool tr default_chat_id st name a
  else
    match initRes with
    | Except.error e => (st, Response.plain ("Error: " ++ e))
    | Except.ok _ =>
        dispatchTool tr default_chat_id { st with clientInit := true } name a

/-! ### Concrete fixtures used by witnesses and counterexamples -/

/-- A fixed message object returned by successful send transports. -/
def msg0 : SentMessage :=
  { message_id := 7, chat_id := 42, date := some "2026-01-01T00:00:00" }

/-- A fixed bot-identity object. -/
def botUser0 : BotUser :=
  { id := 1, is_bot := true, first_name := "bot", username := some "botty",
    can_join_groups := true, can_read_all_group_messages := false,
    supports_inline_queries := false }

/-- A fixed chat-info object. -/
def chat0 : ChatFull :=
  { id := 42, type := "group", title := some "devs", username := none,
    first_name := none, last_name := none, description := some "a chat" }

/-- A fixed webhook-info object. -/
def hookInfo0 : WebhookInfo :=
  { url := "https://example.test/hook", has_custom_certificate := false,
    pending_update_count := 0, ip_address := none, last_error_date := none,
    last_error_message := none, max_connections := some 40,
    allowed_updates := none }

/-- A transport whose every operation succeeds with a fixed value. -/
def okTransport : Transport :=
  { sendMessage := fun _ => Except.ok msg0
    sendPhoto := fun _ => Except.ok msg0
    sendDocument := fun _ => Except.ok msg0
    getUpdates := fun _ => Except.ok []
    getMe := fun _ => Except.ok botUser0
    getChat := fun _ => Except.ok chat0
    getChatMemberCount := fun _ => Except.ok 3
    setWebhook := fun _ _ => Except.ok true
    deleteWebhook := fun _ => Except.ok true
    getWebhookInfo := fun _ => Except.ok hookInfo0 }

/-- A transport whose every operation raises with message `e`. -/
def failTransport (e : String) : Transport :=
  { sendMessage := fun _ => Except.error e
    sendPhoto := fun _ => Except.error e
    sendDocument := fun _ => Except.error e
    getUpdates := fun _ => Except.error e
    getMe := fun _ => Except.error e
    getChat := fun _ => Except.error e
    getChatMemberCount := fun _ => Except.error e
    setWebhook := fun _ _ => Except.error e
    deleteWebhook := fun _ => Except.error e
    getWebhookInfo := fun _ => Except.error e }

/-- Fresh gateway state: client constructed, no pull has ever completed. -/
def st0 : GatewayState := { clientInit := true, last_update_id := none }

/-- An update with identifier `0` and no message. -/
def upd0 : TgUpdate := { update_id := 0, update_type := "message", message := none }

/-- An update with identifier `5` and no message. -/
def upd5 : TgUpdate := { update_id := 5, update_type := "message", message := none }

/-- A `get_updates` transport that always returns the batch `[upd0]`. -/
def zeroBatchBot : GetUpdatesCall → Except String (List TgUpdate) :=
  fun _ => Except.ok [upd0]

/-- A `get_updates` transport that always returns the batch `[upd5]`. -/
def fiveBatchBot : GetUpdatesCall → Except String (List TgUpdate) :=
  fun _ => Except.ok [upd5]

/-! ### Claim theorems -/

/-- C2 (counterexample): a successful pull returns the single update with
identifier `0`; the cursor becomes `0`, yet the next computed offset is
unset (`none`) rather than `lastSeen + 1 = 1` — `nextOffset` tests Python
truthiness, not presence, so the claim fails at this input. -/
theorem c2_zero_id_counterexample :
    (mcpGetUpdates zeroBatchBot none []).1 = some 0 ∧
    nextOffset (mcpGetUpdates zeroBatchBot none []).1 = none ∧
    (none : Option Nat) ≠ some (0 + 1) := by
  refine ⟨rfl, rfl, by decide⟩

/-- C2 (amended): before any successful pull the offset passed to the
transport is unset; after a pull whose batch ends in identifier `L`, the
next pull's computed offset is `L + 1` when `L ≠ 0` and unset when `L = 0`
(the code tests the cursor's truthiness, so a last-seen identifier of `0`
behaves like an unset cursor). -/
theorem c2_next_offset (bot : GetUpdatesCall → Except String (List TgUpdate))
    (cur : Option Nat) (a : Args) (updates : List TgUpdate) (last : TgUpdate)
    (hbot : bot (pullCall cur a) = Except.ok updates)
    (hlast : updates.getLast? = some last) :
    (pullCall none a).offset = none ∧
    (mcpGetUpdates bot cur a).1 = some last.update_id ∧
    nextOffset (mcpGetUpdates bot cur a).1 =
      (if last.update_id = 0 then none else some (last.update_id + 1)) := by
  have hres : (mcpGetUpdates bot cur a).1 = some last.update_id := by
    simp only [mcpGetUpdates, hbot, hlast]
  refine ⟨rfl, hres, ?_⟩
  rw [hres]
  rfl

/-- Witness for `c2_next_offset` at a concrete transport returning `[upd5]`. -/
theorem c2_next_offset_witness :
    (pullCall none []).offset = none ∧
    (mcpGetUpdates fiveBatchBot none []).1 = some upd5.update_id ∧
    nextOffset (mcpGetUpdates fiveBatchBot none []).1 =
      (if upd5.update_id = 0 then none else some (upd5.update_id + 1)) :=
  c2_next_offset fiveBatchBot none [] [upd5] upd5 rfl rfl

/-- Every dispatched action other than `telegram_get_updates` (including the
unknown-name fallback) returns the cursor unchanged. -/
theorem dispatch_preserves_cursor (tr : Transport) (d : Option String)
    (st : GatewayState) (name : String) (a : Args)
    (hname : name ≠ "telegram_get_updates") :
    (dispatchTool tr d st name a).1.last_update_id = st.last_update_id := by
  unfold dispatchTool
  split_ifs <;> rfl

/-- C3: the update cursor is mutated only by the fetch-updates action (every
other dispatch, and a failed lazy client construction, leave it unchanged); a
fetch whose transport call raises, or returns an empty batch, leaves the
cursor unchanged; and assuming the transport honours the requested offset
(every returned identifier is at least the offset, per the spec's
batch-ordering assumption), the cursor is monotonically non-decreasing. -/
theorem c3_cursor_invariants :
    (∀ (tr : Transport) (d : Option String) (initRes : Except String Unit)
        (st : GatewayState) (name : String) (a : Args),
      name ≠ "telegram_get_updates" →
      (call_tool tr d initRes st name a).1.last_update_id = st.last_update_id) ∧
    (∀ (bot : GetUpdatesCall → Except String (List TgUpdate))
        (cur : Option Nat) (a : Args) (e : String),
      bot (pullCall cur a) = Except.error e →
      (mcpGetUpdates bot cur a).1 = cur) ∧
    (∀ (bot : GetUpdatesCall → Except String (List TgUpdate))
        (cur : Option Nat) (a : Args),
      bot (pullCall cur a) = Except.ok [] →
      (mcpGetUpdates bot cur a).1 = cur) ∧
    (∀ (bot : GetUpdatesCall → Except String (List TgUpdate))
        (cur : Option Nat) (a : Args) (us : List TgUpdate) (v w : Nat),
      bot (pullCall cur a) = Except.ok us →
      (∀ u ∈ us, ∀ o, (pullCall cur a).offset = some o → o ≤ u.update_id) →
      cur = some v → (mcpGetUpdates bot cur a).1 = some w → v ≤ w) := by
  refine ⟨?_, ?_, ?_, ?_⟩
  · intro tr d initRes st name a hname
    unfold call_tool
    by_cases hinit : st.clientInit
    · simp only [hinit, if_true]
      exact dispatch_preserves_cursor tr d st name a hname
    · simp only [hinit, Bool.false_eq_true, if_false]
      cases initRes with
      | error e => rfl
      | ok u => exact dispatch_preserves_cursor tr d _ name a hname
  · intro bot cur a e hbot
    simp only [mcpGetUpdates, hbot]
  · intro bot cur a hbot
    simp only [mcpGetUpdates, hbot, List.getLast?]
  · intro bot cur a us v w hbot hdom hcur hres
    simp only [mcpGetUpdates, hbot] at hres
    cases hlast : us.getLast? with
    | none =>
        rw [hlast] at hres
        simp only at hres
        rw [hcur] at hres
        injection hres with hres
        omega
    | some last =>
        rw [hlast] at hres
        simp only at hres
        injection hres with hres
        subst hres
        by_cases hv : v = 0
        · omega
        · have hoff : (pullCall cur a).offset = some (v + 1) := by
            simp [pullCall, nextOffset, hcur, hv]
          have hmem : last ∈ us := by
            obtain ⟨hne, heq⟩ :=
              List.mem_getLast?_eq_getLast (Option.mem_def.mpr hlast)
            rw [heq]
            exact List.getLast_mem hne
          have := hdom last hmem (v + 1) hoff
          omega

/-- Witness for `c3_cursor_invariants`: the four conjuncts instantiated at
concrete transports — a non-fetch action, a raising fetch, an empty fetch,
and a fetch of `[upd5]` from cursor `3`. -/
theorem c3_cursor_invariants_witness :
    ((call_tool okTransport none (Except.ok ()) st0 "telegram_get_bot_info"
        []).1.last_update_id = st0.last_update_id) ∧
    ((mcpGetUpdates (fun _ => Except.error "network down") (some 9) []).1 =
        some 9) ∧
    ((mcpGetUpdates (fun _ => Except.ok []) (some 9) []).1 = some 9) ∧
    (3 ≤ 5) :=
  ⟨c3_cursor_invariants.1 okTransport none (Except.ok ()) st0
      "telegram_get_bot_info" [] (by decide),
   c3_cursor_invariants.2.1 (fun _ => Except.error "network down") (some 9) []
      "network down" rfl,
   c3_cursor_invariants.2.2.1 (fun _ => Except.ok []) (some 9) [] rfl,
   c3_cursor_invariants.2.2.2 fiveBatchBot (some 3) [] [upd5] 3 5 rfl
      (by intro u hu o ho
          simp only [List.mem_singleton] at hu
          subst hu
          simp only [pullCall, nextOffset] at ho
          injection ho with ho
          simp [upd5, ← ho])
      rfl rfl⟩

/-- With the client already constructed, `call_tool` is the dispatch chain. -/
theorem call_tool_init (tr : Transport) (d : Option String)
    (initRes : Except String Unit) (st : GatewayState) (name : String)
    (a : Args) (h : st.clientInit = true) :
    call_tool tr d initRes st name a = dispatchTool tr d st name a := by
  unfold call_tool
  simp [h]

/-- C4 (counterexample): dispatching the unrecognized name
`"telegram_send_email"` returns the bare string
`"Unknown tool: telegram_send_email"` — a normally returned response, but not
a `{success: false}` JSON envelope of any form. -/
theorem c4_unknown_tool_counterexample :
    (call_tool okTransport none (Except.ok ()) st0 "telegram_send_email"
        []).2 = Response.plain "Unknown tool: telegram_send_email" ∧
    ∀ v : JVal,
      (call_tool okTransport none (Except.ok ()) st0 "telegram_send_email"
        []).2 ≠ Response.json v := by
  refine ⟨rfl, ?_⟩
  intro v h
  rw [show (call_tool okTransport none (Except.ok ()) st0 "telegram_send_email"
        []).2 = Response.plain "Unknown tool: telegram_send_email" from rfl] at h
  exact Response.noConfusion h

/-- C4 (amended): for every action name outside the nine-name catalog, the
dispatcher returns — normally, never as an unhandled fault — the plain text
message `"Unknown tool: <name>"` (a descriptive unknown-action message, though
not wrapped in a `{success: false}` envelope). -/
theorem c4_unknown_tool (name : String) (hname : name ∉ toolNames)
    (tr : Transport) (d : Option String) (st : GatewayState)
    (hinit : st.clientInit = true) (a : Args) :
    (call_tool tr d (Except.ok ()) st name a).2 =
      Response.plain ("Unknown tool: " ++ name) := by
  rw [call_tool_init tr d (Except.ok ()) st name a hinit]
  simp only [toolNames, List.mem_cons, List.mem_singleton] at hname
  push_neg at hname
  obtain ⟨g1, g2, g3, g4, g5, g6, g7, g8, g9⟩ := hname
  unfold dispatchTool
  simp [g1, g2, g3, g4, g5, g6, g7, g8, g9]

/-- Witness for `c4_unknown_tool` at the concrete name `"frobnicate"`. -/
theorem c4_unknown_tool_witness :
    (call_tool okTransport none (Except.ok ()) st0 "frobnicate" []).2 =
      Response.plain ("Unknown tool: " ++ "frobnicate") :=
  c4_unknown_tool "frobnicate" (by decide) okTransport none st0 rfl []

/-- With a raising send transport, `_send_message` returns the uniform
failure envelope whether the failure was the destination-validation
`ValueError` or the transport exception. -/
theorem mcpSendMessage_error (d : Option String) (e : String) (a : Args) :
    ∃ m, (mcpSendMessage d (fun _ => Except.error e) a).2 = errEnvelope m := by
  unfold mcpSendMessage TelegramClient.send_message
  by_cases h : truthyOptStr (resolveChatId (a.getStr "chat_id") d)
  · exact ⟨e, by simp [h]⟩
  · exact ⟨"No chat_id provided and no default chat_id set", by simp [h]⟩

/-- As `mcpSendMessage_error`, for `_send_photo`. -/
theorem mcpSendPhoto_error (d : Option String) (e : String) (a : Args) :
    ∃ m, (mcpSendPhoto d (fun _ => Except.error e) a).2 = errEnvelope m := by
  unfold mcpSendPhoto TelegramClient.send_photo
  by_cases h : truthyOptStr (resolveChatId (a.getStr "chat_id") d)
  · exact ⟨e, by simp [h]⟩
  · exact ⟨"No chat_id provided and no default chat_id set", by simp [h]⟩

/-- As `mcpSendMessage_error`, for `_send_document`. -/
theorem mcpSendDocument_error (d : Option String) (e : String) (a : Args) :
    ∃ m, (mcpSendDocument d (fun _ => Except.error e) a).2 = errEnvelope m := by
  unfold mcpSendDocument TelegramClient.send_document
  by_cases h : truthyOptStr (resolveChatId (a.getStr "chat_id") d)
  · exact ⟨e, by simp [h]⟩
  · exact ⟨"No chat_id provided and no default chat_id set", by simp [h]⟩

/-- C1: for every catalogued action, every per-call failure — the
destination-validation `ValueError` as well as any transport exception (all
transport operations raise here) — is returned normally as a JSON payload of
the single shape `{success: false, error: <message>}`; the failure kinds are
structurally indistinguishable. -/
theorem c1_uniform_failure_envelope (name : String) (hname : name ∈ toolNames)
    (e : String) (d : Option String) (st : GatewayState)
    (hinit : st.clientInit = true) (a : Args) :
    ∃ m, (call_tool (failTransport e) d (Except.ok ()) st name a).2 =
      Response.json (errEnvelope m) := by
  rw [call_tool_init (failTransport e) d (Except.ok ()) st name a hinit]
  simp only [toolNames, List.mem_cons, List.mem_singleton] at hname
  rcases hname with h | h | h | h | h | h | h | h | h | h
  · subst h
    obtain ⟨m, hm⟩ := mcpSendMessage_error d e a
    exact ⟨m, congrArg Response.json hm⟩
  · subst h
    obtain ⟨m, hm⟩ := mcpSendPhoto_error d e a
    exact ⟨m, congrArg Response.json hm⟩
  · subst h
    obtain ⟨m, hm⟩ := mcpSendDocument_error d e a
    exact ⟨m, congrArg Response.json hm⟩
  · subst h
    exact ⟨e, rfl⟩
  · subst h
    exact ⟨e, rfl⟩
  · subst h
    exact ⟨e, rfl⟩
  · subst h
    exact ⟨e, rfl⟩
  · subst h
    exact ⟨e, rfl⟩
  · subst h
    exact ⟨e, rfl⟩
  · exact absurd h (List.not_mem_nil name)

/-- Witness for `c1_uniform_failure_envelope`: a failing `send_message`
against a gateway with no default destination. -/
theorem c1_uniform_failure_envelope_witness :
    ∃ m, (call_tool (failTransport "rate limited") none (Except.ok ()) st0
        "telegram_send_message" [("text", PyVal.pstr "hi")]).2 =
      Response.json (errEnvelope m) :=
  c1_uniform_failure_envelope "telegram_send_message" (by decide)
    "rate limited" none st0 rfl [("text", PyVal.pstr "hi")]

/-- A falsy explicit `chat_id` resolves to the default destination. -/
theorem resolveChatId_falsy (c d : Option String)
    (h : truthyOptStr c = false) : resolveChatId c d = d := by
  simp [resolveChatId, h]

/-- C5 (counterexample): the caller supplies the explicit `chat_id` `""` while
the default destination is `"999"`; the transport call is made with `"999"`,
not the supplied value — Python `or` discards a falsy explicit argument, so
"if an explicit chat_id argument is supplied it is used" fails here. -/
theorem c5_empty_chat_id_counterexample :
    (TelegramClient.send_message (some "999") (fun _ => Except.ok msg0)
        (some "hi") (some "") (some "Markdown") false).1.map
        SendMessageCall.chat_id = some "999" ∧
    ("999" : String) ≠ "" := by
  exact ⟨rfl, by decide⟩

/-- C5 (amended): for every send action — a non-empty explicit `chat_id` is
used; an absent or empty explicit `chat_id` falls back to the configured
non-empty default; when both are absent/empty, the call returns the
destination-validation error and the transport is never invoked (no call
record exists, whatever the transport would have answered). -/
theorem c5_destination_resolution :
    (∀ (d : Option String) (bot : SendMessageCall → Except String SentMessage)
        (text pm : Option String) (dn : Bool) (s : String), s ≠ "" →
      (TelegramClient.send_message d bot text (some s) pm dn).1.map
        SendMessageCall.chat_id = some s) ∧
    (∀ (d : Option String) (bot : SendMessageCall → Except String SentMessage)
        (text c pm : Option String) (dn : Bool) (sd : String),
      truthyOptStr c = false → d = some sd → sd ≠ "" →
      (TelegramClient.send_message d bot text c pm dn).1.map
        SendMessageCall.chat_id = some sd) ∧
    (∀ (d : Option String) (bot : SendMessageCall → Except String SentMessage)
        (text c pm : Option String) (dn : Bool),
      truthyOptStr c = false → truthyOptStr d = false →
      TelegramClient.send_message d bot text c pm dn =
        (none, Except.error "No chat_id provided and no default chat_id set")) ∧
    (∀ (d : Option String) (bot : SendPhotoCall → Except String SentMessage)
        (photo cap pm : Option String) (dn : Bool) (s : String), s ≠ "" →
      (TelegramClient.send_photo d bot photo (some s) cap pm dn).1.map
        SendPhotoCall.chat_id = some s) ∧
    (∀ (d : Option String) (bot : SendPhotoCall → Except String SentMessage)
        (photo c cap pm : Option String) (dn : Bool) (sd : String),
      truthyOptStr c = false → d = some sd → sd ≠ "" →
      (TelegramClient.send_photo d bot photo c cap pm dn).1.map
        SendPhotoCall.chat_id = some sd) ∧
    (∀ (d : Option String) (bot : SendPhotoCall → Except String SentMessage)
        (photo c cap pm : Option String) (dn : Bool),
      truthyOptStr c = false → truthyOptStr d = false →
      TelegramClient.send_photo d bot photo c cap pm dn =
        (none, Except.error "No chat_id provided and no default chat_id set")) ∧
    (∀ (d : Option String) (bot : SendDocumentCall → Except String SentMessage)
        (doc cap pm : Option String) (dn : Bool) (s : String), s ≠ "" →
      (TelegramClient.send_document d bot doc (some s) cap pm dn).1.map
        SendDocumentCall.chat_id = some s) ∧
    (∀ (d : Option String) (bot : SendDocumentCall → Except String SentMessage)
        (doc c cap pm : Option String) (dn : Bool) (sd : String),
      truthyOptStr c = false → d = some sd → sd ≠ "" →
      (TelegramClient.send_document d bot doc c cap pm dn).1.map
        SendDocumentCall.chat_id = some sd) ∧
    (∀ (d : Option String) (bot : SendDocumentCall → Except String SentMessage)
        (doc c cap pm : Option String) (dn : Bool),
      truthyOptStr c = false → truthyOptStr d = false →
      TelegramClient.send_document d bot doc c cap pm dn =
        (none, Except.error "No chat_id provided and no default chat_id set")) := by
  refine ⟨?_, ?_, ?_, ?_, ?_, ?_, ?_, ?_, ?_⟩
  · intro d bot text pm dn s hs
    simp [TelegramClient.send_message, resolveChatId, truthyOptStr, hs]
  · intro d bot text c pm dn sd hc hd hsd
    subst hd
    have hr := resolveChatId_falsy c (some sd) hc
    simp [TelegramClient.send_message, hr, truthyOptStr, hsd]
  · intro d bot text c pm dn hc hd
    simp [TelegramClient.send_message, resolveChatId, hc, hd]
  · intro d bot photo cap pm dn s hs
    simp [TelegramClient.send_photo, resolveChatId, truthyOptStr, hs]
  · intro d bot photo c cap pm dn sd hc hd hsd
    subst hd
    have hr := resolveChatId_falsy c (some sd) hc
    simp [TelegramClient.send_photo, hr, truthyOptStr, hsd]
  · intro d bot photo c cap pm dn hc hd
    simp [TelegramClient.send_photo, resolveChatId, hc, hd]
  · intro d bot doc cap pm dn s hs
    simp [TelegramClient.send_document, resolveChatId, truthyOptStr, hs]
  · intro d bot doc c cap pm dn sd hc hd hsd
    subst hd
    have hr := resolveChatId_falsy c (some sd) hc
    simp [TelegramClient.send_document, hr, truthyOptStr, hsd]
  · intro d bot doc c cap pm dn hc hd
    simp [TelegramClient.send_document, resolveChatId, hc, hd]

/-- Witness for `c5_destination_resolution`: all nine conjuncts at concrete
inputs (explicit `"123"`, fallback to default `"999"`, and the
nothing-configured validation failure, for each send action). -/
theorem c5_destination_resolution_witness :
    ((TelegramClient.send_message none (fun _ => Except.ok msg0) (some "hi")
        (some "123") none false).1.map SendMessageCall.chat_id = some "123") ∧
    ((TelegramClient.send_message (some "999") (fun _ => Except.ok msg0)
        (some "hi") none none false).1.map SendMessageCall.chat_id =
        some "999") ∧
    (TelegramClient.send_message none (fun _ => Except.ok msg0) (some "hi")
        none none false =
      (none, Except.error "No chat_id provided and no default chat_id set")) ∧
    ((TelegramClient.send_photo none (fun _ => Except.ok msg0) (some "p.png")
        (some "123") none none false).1.map SendPhotoCall.chat_id =
        some "123") ∧
    ((TelegramClient.send_photo (some "999") (fun _ => Except.ok msg0)
        (some "p.png") none none none false).1.map SendPhotoCall.chat_id =
        some "999") ∧
    (TelegramClient.send_photo none (fun _ => Except.ok msg0) (some "p.png")
        none none none false =
      (none, Except.error "No chat_id provided and no default chat_id set")) ∧
    ((TelegramClient.send_document none (fun _ => Except.ok msg0)
        (some "d.pdf") (some "123") none none false).1.map
        SendDocumentCall.chat_id = some "123") ∧
    ((TelegramClient.send_document (some "999") (fun _ => Except.ok msg0)
        (some "d.pdf") none none none false).1.map SendDocumentCall.chat_id =
        some "999") ∧
    (TelegramClient.send_document none (fun _ => Except.ok msg0) (some "d.pdf")
        none none none false =
      (none, Except.error "No chat_id provided and no default chat_id set")) :=
  ⟨c5_destination_resolution.1 none (fun _ => Except.ok msg0) (some "hi") none
      false "123" (by decide),
   c5_destination_resolution.2.1 (some "999") (fun _ => Except.ok msg0)
      (some "hi") none none false "999" rfl rfl (by decide),
   c5_destination_resolution.2.2.1 none (fun _ => Except.ok msg0) (some "hi")
      none none false rfl rfl,
   c5_destination_resolution.2.2.2.1 none (fun _ => Except.ok msg0)
      (some "p.png") none none false "123" (by decide),
   c5_destination_resolution.2.2.2.2.1 (some "999") (fun _ => Except.ok msg0)
      (some "p.png") none none none false "999" rfl rfl (by decide),
   c5_destination_resolution.2.2.2.2.2.1 none (fun _ => Except.ok msg0)
      (some "p.png") none none none false rfl rfl,
   c5_destination_resolution.2.2.2.2.2.2.1 none (fun _ => Except.ok msg0)
      (some "d.pdf") none none false "123" (by decide),
   c5_destination_resolution.2.2.2.2.2.2.2.1 (some "999")
      (fun _ => Except.ok msg0) (some "d.pdf") none none none false "999" rfl
      rfl (by decide),
   c5_destination_resolution.2.2.2.2.2.2.2.2 none (fun _ => Except.ok msg0)
      (some "d.pdf") none none none false rfl rfl⟩

/-- C6 (counterexample): with `parse_mode = "bogus"` the send is *not*
rejected: the transport is invoked (a call record exists), the call
succeeds, and the parse mode silently degrades to `none` — no validation
error is ever raised for an out-of-set parse mode. -/
theorem c6_bogus_parse_mode_counterexample :
    TelegramClient.send_message (some "7") (fun _ => Except.ok msg0) (some "x")
        none (some "bogus") false =
      (some { chat_id := "7", text := some "x", parse_mode := none,
              disable_notification := false },
       Except.ok msg0) := rfl

/-- C6 (amended): an out-of-set `parse_mode` is never passed through to the
transport — it is silently normalized to no-formatting (`none`) rather than
rejected, and the send proceeds; `"Markdown"`/`"HTML"` are accepted
case-insensitively and normalized to the canonical enum; the transport only
ever receives the normalized enum, never the raw string. -/
theorem c6_parse_mode_normalization :
    (∀ s : String, pyUpper s ≠ "MARKDOWN" → pyUpper s ≠ "HTML" →
      parseModeEnum (some s) = none) ∧
    (∀ s : String, pyUpper s = "MARKDOWN" →
      parseModeEnum (some s) = some ParseMode.MARKDOWN) ∧
    (∀ s : String, pyUpper s = "HTML" →
      parseModeEnum (some s) = some ParseMode.HTML) ∧
    (∀ (d : Option String) (bot : SendMessageCall → Except String SentMessage)
        (text c pm : Option String) (dn : Bool) (call : SendMessageCall),
      (TelegramClient.send_message d bot text c pm dn).1 = some call →
      call.parse_mode = parseModeEnum pm) := by
  refine ⟨?_, ?_, ?_, ?_⟩
  · intro s h1 h2
    by_cases hs : s = ""
    · subst hs
      rfl
    · simp [parseModeEnum, truthyOptStr, hs, h1, h2]
  · intro s h
    have hs : s ≠ "" := by
      intro he
      rw [he] at h
      exact absurd h (by decide)
    simp [parseModeEnum, truthyOptStr, hs, h]
  · intro s h
    have hs : s ≠ "" := by
      intro he
      rw [he] at h
      exact absurd h (by decide)
    simp [parseModeEnum, truthyOptStr, hs, h]
  · intro d bot text c pm dn call h
    simp only [TelegramClient.send_message] at h
    split at h
    · injection h with h
      subst h
      rfl
    · exact absurd h (by simp)

/-- Witness for `c6_parse_mode_normalization`: `"bogus"` degrades to `none`,
`"markdown"`/`"Html"` normalize case-insensitively, and a concrete transport
call carries the normalized enum. -/
theorem c6_parse_mode_normalization_witness :
    parseModeEnum (some "bogus") = none ∧
    parseModeEnum (some "markdown") = some ParseMode.MARKDOWN ∧
    parseModeEnum (some "Html") = some ParseMode.HTML ∧
    SendMessageCall.parse_mode
      { chat_id := "7", text := some "x",
        parse_mode := parseModeEnum (some "Html"),
        disable_notification := false } = parseModeEnum (some "Html") :=
  ⟨c6_parse_mode_normalization.1 "bogus" (by decide) (by decide),
   c6_parse_mode_normalization.2.1 "markdown" (by decide),
   c6_parse_mode_normalization.2.2.1 "Html" (by decide),
   c6_parse_mode_normalization.2.2.2 (some "7") (fun _ => Except.ok msg0)
      (some "x") none (some "Html") false
      { chat_id := "7", text := some "x",
        parse_mode := parseModeEnum (some "Html"),
        disable_notification := false } rfl⟩

/-- C7 (counterexample): a successful `get-bot-info` returns the bare info
dict — it carries no `success` key at all, so "every successful invocation
returns `{success: true, ...payload}`" fails for this action. -/
theorem c7_no_success_flag_counterexample :
    (mcpGetBotInfo (fun _ => Except.ok botUser0) []).lookup "success" = none ∧
    (mcpGetBotInfo (fun _ => Except.ok botUser0) []).lookup "id" =
      some (JVal.ji botUser0.id) := ⟨rfl, rfl⟩

/-- C7 (amended): the three send actions do return
`{success: true, message_id, chat_id, <extra>}` with the extra field a send
timestamp for text and a caption-presence boolean for photo/document; but
the info-returning actions return their payload bare — e.g. a successful
`get-bot-info` has no `success` key. -/
theorem c7_result_shapes :
    (∀ (d : Option String) (m : SentMessage) (a : Args),
      truthyOptStr (resolveChatId (a.getStr "chat_id") d) = true →
      (mcpSendMessage d (fun _ => Except.ok m) a).2 =
        JVal.jobj [("success", JVal.jb true),
                   ("message_id", JVal.ji m.message_id),
                   ("chat_id", JVal.ji m.chat_id),
                   ("date", optStrJ m.date)]) ∧
    (∀ (d : Option String) (m : SentMessage) (a : Args),
      truthyOptStr (resolveChatId (a.getStr "chat_id") d) = true →
      (mcpSendPhoto d (fun _ => Except.ok m) a).2 =
        JVal.jobj [("success", JVal.jb true),
                   ("message_id", JVal.ji m.message_id),
                   ("chat_id", JVal.ji m.chat_id),
                   ("has_caption", JVal.jb (truthyOptStr (a.getStr "caption")))]) ∧
    (∀ (d : Option String) (m : SentMessage) (a : Args),
      truthyOptStr (resolveChatId (a.getStr "chat_id") d) = true →
      (mcpSendDocument d (fun _ => Except.ok m) a).2 =
        JVal.jobj [("success", JVal.jb true),
                   ("message_id", JVal.ji m.message_id),
                   ("chat_id", JVal.ji m.chat_id),
                   ("has_caption", JVal.jb (truthyOptStr (a.getStr "caption")))]) ∧
    (∀ (b : BotUser) (a : Args),
      (mcpGetBotInfo (fun _ => Except.ok b) a).lookup "success" = none) := by
  refine ⟨?_, ?_, ?_, ?_⟩
  · intro d m a h
    simp [mcpSendMessage, TelegramClient.send_message, h]
  · intro d m a h
    simp [mcpSendPhoto, TelegramClient.send_photo, h]
  · intro d m a h
    simp [mcpSendDocument, TelegramClient.send_document, h]
  · intro b a
    rfl

/-- Witness for `c7_result_shapes`: the four conjuncts at a default
destination `"5"`, the fixed message `msg0`, and the fixed bot identity. -/
theorem c7_result_shapes_witness :
    ((mcpSendMessage (some "5") (fun _ => Except.ok msg0) []).2 =
      JVal.jobj [("success", JVal.jb true),
                 ("message_id", JVal.ji msg0.message_id),
                 ("chat_id", JVal.ji msg0.chat_id),
                 ("date", optStrJ msg0.date)]) ∧
    ((mcpSendPhoto (some "5") (fun _ => Except.ok msg0) []).2 =
      JVal.jobj [("success", JVal.jb true),
                 ("message_id", JVal.ji msg0.message_id),
                 ("chat_id", JVal.ji msg0.chat_id),
                 ("has_caption",
                  JVal.jb (truthyOptStr (Args.getStr [] "caption")))]) ∧
    ((mcpSendDocument (some "5") (fun _ => Except.ok msg0) []).2 =
      JVal.jobj [("success", JVal.jb true),
                 ("message_id", JVal.ji msg0.message_id),
                 ("chat_id", JVal.ji msg0.chat_id),
                 ("has_caption",
                  JVal.jb (truthyOptStr (Args.getStr [] "caption")))]) ∧
    ((mcpGetBotInfo (fun _ => Except.ok botUser0) []).lookup "success" =
      none) :=
  ⟨c7_result_shapes.1 (some "5") msg0 [] rfl,
   c7_result_shapes.2.1 (some "5") msg0 [] rfl,
   c7_result_shapes.2.2.1 (some "5") msg0 [] rfl,
   c7_result_shapes.2.2.2 botUser0 []⟩

/-- C8 (counterexample): the set-webhook transport completes *without
throwing*, returning the boolean `false`; the envelope's own `success` field
is `false` (the transport boolean), not `true` as "success reflects that the
call completed without throwing" would require. -/
theorem c8_webhook_flag_counterexample :
    (mcpSetWebhook (fun _ _ => Except.ok false)
        [("url", PyVal.pstr "https://example.test/hook")]).lookup "success" =
      some (JVal.jb false) ∧
    (mcpSetWebhook (fun _ _ => Except.ok false)
        [("url", PyVal.pstr "https://example.test/hook")]).lookup "message" =
      some (JVal.js "Failed to set webhook") := ⟨rfl, rfl⟩

/-- C8 (amended): when the transport call completes without throwing, its
boolean result determines *both* the envelope's `success` flag and the
human-readable message text; a throwing transport instead yields the uniform
`{success: false, error}` envelope. -/
theorem c8_webhook_envelope (a : Args) (b : Bool) (e : String) :
    mcpSetWebhook (fun _ _ => Except.ok b) a =
      JVal.jobj [("success", JVal.jb b),
                 ("webhook_url", optStrJ (a.getStr "url")),
                 ("message", JVal.js (if b then "Webhook set successfully"
                                      else "Failed to set webhook"))] ∧
    mcpDeleteWebhook (fun _ => Except.ok b) a =
      JVal.jobj [("success", JVal.jb b),
                 ("message", JVal.js (if b then "Webhook deleted successfully"
                                      else "Failed to delete webhook"))] ∧
    mcpSetWebhook (fun _ _ => Except.error e) a = errEnvelope e ∧
    mcpDeleteWebhook (fun _ => Except.error e) a = errEnvelope e :=
  ⟨rfl, rfl, rfl, rfl⟩

/-- C9 (counterexample): `get-chat-info` whose member-count lookup throws
still returns the primary fields (`id` is present) but the payload carries
*no* `success` key, contradicting "carries success=true". -/
theorem c9_no_success_flag_counterexample :
    (mcpGetChatInfo (fun _ => Except.ok chat0)
        (fun _ => Except.error "forbidden")
        [("chat_id", PyVal.pstr "42")]).lookup "success" = none ∧
    (mcpGetChatInfo (fun _ => Except.ok chat0)
        (fun _ => Except.error "forbidden")
        [("chat_id", PyVal.pstr "42")]).lookup "id" =
      some (JVal.ji chat0.id) := ⟨rfl, rfl⟩

/-- C9 (amended): when the primary chat lookup succeeds and the member-count
lookup throws, the action still returns the full primary payload: all seven
primary chat fields, no `member_count` key, no `success` key, and the
enrichment error message appears nowhere (the payload is independent of it). -/
theorem c9_member_count_suppressed (c : ChatFull) (e : String) (a : Args) :
    mcpGetChatInfo (fun _ => Except.ok c) (fun _ => Except.error e) a =
      JVal.jobj (chatInfoFields c) ∧
    (JVal.jobj (chatInfoFields c)).lookup "member_count" = none ∧
    (JVal.jobj (chatInfoFields c)).lookup "success" = none ∧
    (JVal.jobj (chatInfoFields c)).lookup "error" = none ∧
    (JVal.jobj (chatInfoFields c)).lookup "id" = some (JVal.ji c.id) :=
  ⟨rfl, rfl, rfl, rfl, rfl⟩

/-- C10: for photo and document sends, whenever the caption is absent or
empty, the parse mode handed to the transport is `none`, whatever the
`parse_mode` argument was (`if parse_mode and caption:` gates the
conversion). -/
theorem c10_caption_gates_parse_mode :
    (∀ (d : Option String) (bot : SendPhotoCall → Except String SentMessage)
        (photo c cap pm : Option String) (dn : Bool) (call : SendPhotoCall),
      cap = none ∨ cap = some "" →
      (TelegramClient.send_photo d bot photo c cap pm dn).1 = some call →
      call.parse_mode = none) ∧
    (∀ (d : Option String) (bot : SendDocumentCall → Except String SentMessage)
        (doc c cap pm : Option String) (dn : Bool) (call : SendDocumentCall),
      cap = none ∨ cap = some "" →
      (TelegramClient.send_document d bot doc c cap pm dn).1 = some call →
      call.parse_mode = none) := by
  constructor
  · intro d bot photo c cap pm dn call hcap h
    have hf : truthyOptStr cap = false := by
      rcases hcap with rfl | rfl <;> rfl
    simp only [TelegramClient.send_photo] at h
    split at h
    · injection h with h
      subst h
      simp [hf]
    · exact absurd h (by simp)
  · intro d bot doc c cap pm dn call hcap h
    have hf : truthyOptStr cap = false := by
      rcases hcap with rfl | rfl <;> rfl
    simp only [TelegramClient.send_document] at h
    split at h
    · injection h with h
      subst h
      simp [hf]
    · exact absurd h (by simp)

/-- Witness for `c10_caption_gates_parse_mode`: captionless photo and
document sends with `parse_mode = "Markdown"` both carry `none` to the
transport. -/
theorem c10_caption_gates_parse_mode_witness :
    SendPhotoCall.parse_mode
      { chat_id := "7", photo := some "p.png", caption := none,
        parse_mode := none, disable_notification := false } = none ∧
    SendDocumentCall.parse_mode
      { chat_id := "7", document := some "d.pdf", caption := none,
        parse_mode := none, disable_notification := false } = none :=
  ⟨c10_caption_gates_parse_mode.1 (some "7") (fun _ => Except.ok msg0)
      (some "p.png") none none (some "Markdown") false
      { chat_id := "7", photo := some "p.png", caption := none,
        parse_mode := none, disable_notification := false }
      (Or.inl rfl) rfl,
   c10_caption_gates_parse_mode.2 (some "7") (fun _ => Except.ok msg0)
      (some "d.pdf") none none (some "Markdown") false
      { chat_id := "7", document := some "d.pdf", caption := none,
        parse_mode := none, disable_notification := false }
      (Or.inl rfl) rfl⟩

end TelegramService
